import Mathlib

/-!
# Verification of the ore-cli daemon core

Shallow embedding of the metrics pipeline (`src/cloudwatch.rs`) and the
daemon lifecycle manager (`src/main.rs`) of the ore-cli daemon, together
with theorems settling the specification claims about them.

Modelling conventions:
* Rust `f64` metric values are modelled as exact rationals (`Rat`); the
  embedded decimal parser covers plain decimal literals, on which Rust's
  `f64` parsing is exact for the magnitudes occurring in the claims.
* A Rust slice index out of bounds is a panic; the embedding makes this
  explicit with the `PanicOr` outcome type.
* Filesystem and process effects of the lifecycle manager are modelled as
  an explicit `DaemonWorld` state plus the list of process identifiers
  that were sent a termination signal.
-/

namespace OreDaemon

/-- Models Rust `str::trim` on a character list: drop leading and
trailing whitespace. -/
def trimChars (cs : List Char) : List Char :=
  ((cs.dropWhile Char.isWhitespace).reverse.dropWhile Char.isWhitespace).reverse

/-- Models Rust `str::trim`. -/
def strTrim (s : String) : String :=
  ⟨trimChars s.toList⟩

/-- Models Rust `str::split_whitespace`: split on whitespace, discarding
empty fragments. -/
def splitWhitespace (s : String) : List String :=
  ((s.toList.splitOnP Char.isWhitespace).filter (fun t => !t.isEmpty)).map (fun t => ⟨t⟩)

/-- Models Rust `str::starts_with` for a string pattern, as a prefix test
on the character sequence. -/
def startsWithStr (s p : String) : Bool :=
  p.toList.isPrefixOf s.toList

/-- Models Rust `str::trim_end_matches` with a single-character pattern:
strip every trailing occurrence of the character. -/
def trimEndMatches (c : Char) (s : String) : String :=
  ⟨(s.toList.reverse.dropWhile (fun a => a == c)).reverse⟩

/-- Numeric value of a digit list, most significant first (no validity
check; callers validate). -/
def digitsVal (cs : List Char) : Nat :=
  cs.foldl (fun a c => a * 10 + (c.toNat - 48)) 0

/-- A non-empty all-digit character list, or failure. -/
def digitsToNat? (cs : List Char) : Option Nat :=
  if !cs.isEmpty && cs.all Char.isDigit then some (digitsVal cs) else none

/-- Models Rust `str::parse::<u64>`: optional leading sign, digits, value
within the unsigned 64-bit range. -/
def parseU64 (s : String) : Option Nat :=
  let cs := match s.toList with
    | '+' :: r => r
    | cs => cs
  match digitsToNat? cs with
  | none => none
  | some n => if n < 2 ^ 64 then some n else none

/-- Models Rust `str::parse::<f64>` on plain decimal literals
(optional sign, integer part, optional fractional part), returning the
exact rational value. Every numeric token relevant to the claims is of
this shape and exactly representable, so the rational model agrees with
the `f64` semantics there. -/
def parseF64 (s : String) : Option Rat :=
  let (neg, cs) : Bool × List Char := match s.toList with
    | '-' :: r => (true, r)
    | '+' :: r => (false, r)
    | cs => (false, cs)
  let intPart := cs.takeWhile (fun c => c != '.')
  let mag : Option Rat := match cs.dropWhile (fun c => c != '.') with
    | [] =>
      if !intPart.isEmpty && intPart.all Char.isDigit then
        some (mkRat (digitsVal intPart) 1)
      else none
    | '.' :: frac =>
      if !intPart.isEmpty && intPart.all Char.isDigit && frac.all Char.isDigit then
        some (mkRat (digitsVal intPart * 10 ^ frac.length + digitsVal frac) (10 ^ frac.length))
      else none
    | _ => none
  match mag with
  | none => none
  | some m => some (if neg then -m else m)

/-- The sparse metric record built from one output line
(struct `Metrics` in `src/cloudwatch.rs`). -/
structure Metrics where
  stake : Option Rat
  change : Option Rat
  multiplier : Option Rat
  difficulty : Option Nat
  timestamp : Option String
  tx_hash : Option String
deriving Repr, DecidableEq

/-- The all-`None` record `parse_metrics` starts from. -/
def emptyMetrics : Metrics :=
  { stake := none, change := none, multiplier := none,
    difficulty := none, timestamp := none, tx_hash := none }

/-- Number of populated fields of a record (all six fields). -/
def populatedCount (m : Metrics) : Nat :=
  (if m.stake.isSome then 1 else 0) + (if m.change.isSome then 1 else 0) +
  (if m.multiplier.isSome then 1 else 0) + (if m.difficulty.isSome then 1 else 0) +
  (if m.timestamp.isSome then 1 else 0) + (if m.tx_hash.isSome then 1 else 0)

/-- Number of populated numeric fields (the four that are forwarded). -/
def numericCount (m : Metrics) : Nat :=
  (if m.stake.isSome then 1 else 0) + (if m.change.isSome then 1 else 0) +
  (if m.multiplier.isSome then 1 else 0) + (if m.difficulty.isSome then 1 else 0)

/-- Outcome of Rust code that may panic (out-of-bounds slice index). -/
inductive PanicOr (α : Type) where
  | panic : PanicOr α
  | val : α → PanicOr α
deriving Repr, DecidableEq

/-- Embedding of `parse_metrics` (`src/cloudwatch.rs`, lines 44–92).
Each branch reads a fixed token index from the whitespace-split line; a
missing index is a Rust panic (`.panic`); a failed numeric conversion
makes the surrounding `Option` return `none` (the `.ok()?` pattern);
otherwise the single corresponding field is populated. -/
def parse_metrics (line : String) : PanicOr (Option Metrics) :=
  let trimmed := strTrim line
  let parts := splitWhitespace trimmed
  if startsWithStr trimmed "Stake:" then
    match parts[1]? with
    | none => .panic
    | some tok =>
      match parseF64 tok with
      | none => .val none
      | some v => .val (some { emptyMetrics with stake := some v })
  else if startsWithStr trimmed "Change:" then
    match parts[1]? with
    | none => .panic
    | some tok =>
      match parseF64 tok with
      | none => .val none
      | some v => .val (some { emptyMetrics with change := some v })
  else if startsWithStr trimmed "Multiplier:" then
    match parts[1]? with
    | none => .panic
    | some tok =>
      match parseF64 (trimEndMatches 'x' tok) with
      | none => .val none
      | some v => .val (some { emptyMetrics with multiplier := some v })
  else if startsWithStr trimmed "Best hash:" then
    match parts[4]? with
    | none => .panic
    | some tok =>
      match parseU64 (trimEndMatches ')' tok) with
      | none => .val none
      | some d => .val (some { emptyMetrics with difficulty := some d })
  else if startsWithStr trimmed "Timestamp:" then
    match parts[1]?, parts[2]? with
    | some d, some t => .val (some { emptyMetrics with timestamp := some (d ++ "T" ++ t ++ "Z") })
    | _, _ => .panic
  else if startsWithStr trimmed "OK" then
    match parts[1]? with
    | none => .panic
    | some tok => .val (some { emptyMetrics with tx_hash := some (strTrim tok) })
  else
    .val (some emptyMetrics)

/-- One entry of a CloudWatch metric batch (the fields of
`MetricDatum` set by `send_metrics_to_cloudwatch`). -/
structure MetricDatum where
  metric_name : String
  dimensions : List (String × String)
  value : Rat
  unit : String
deriving Repr, DecidableEq

/-- The fixed dimension tag attached to every entry
(`Environment = MainnetBeta`). -/
def commonDimensions : List (String × String) :=
  [("Environment", "MainnetBeta")]

/-- The batch built by `send_metrics_to_cloudwatch`
(`src/cloudwatch.rs`, lines 100–143): one entry per populated numeric
field, in the fixed field order; `difficulty` is cast to a float. -/
def buildMetricData (m : Metrics) : List MetricDatum :=
  (match m.stake with
   | some v => [{ metric_name := "Stake", dimensions := commonDimensions,
                  value := v, unit := "None" }]
   | none => []) ++
  (match m.change with
   | some v => [{ metric_name := "Change", dimensions := commonDimensions,
                  value := v, unit := "None" }]
   | none => []) ++
  (match m.multiplier with
   | some v => [{ metric_name := "Multiplier", dimensions := commonDimensions,
                  value := v, unit := "None" }]
   | none => []) ++
  (match m.difficulty with
   | some d => [{ metric_name := "Difficulty", dimensions := commonDimensions,
                  value := (d : Rat), unit := "None" }]
   | none => [])

/-- A backend collaborator: one `put_metric_data` submission of a batch,
succeeding or failing with an error message. -/
def Backend : Type := List MetricDatum → Except String Unit

/-- A backend that always accepts. -/
def okBackend : Backend := fun _ => .ok ()

/-- Embedding of `send_metrics_to_cloudwatch` (`src/cloudwatch.rs`,
lines 94–158): build the batch; if non-empty, submit it in one backend
call, surfacing the backend error; if empty, make no call and succeed.
Returns the result together with the list of backend calls made. -/
def send_metrics_to_cloudwatch (backend : Backend) (metrics : Metrics) :
    Except String Unit × List (List MetricDatum) :=
  let metric_data := buildMetricData metrics
  if !metric_data.isEmpty then
    (backend metric_data, [metric_data])
  else
    (.ok (), [])

/-- Embedding of `process_mining_metrics` (`src/cloudwatch.rs`,
lines 160–180): empty lines succeed immediately; a `parse_metrics`
failure is the error string "Failed to parse metrics"; otherwise the
record is forwarded. A parser panic propagates. -/
def process_mining_metrics (backend : Backend) (line : String) :
    PanicOr (Except String Unit × List (List MetricDatum)) :=
  if line.length > 0 then
    match parse_metrics line with
    | .panic => .panic
    | .val none => .val (.error "Failed to parse metrics", [])
    | .val (some metrics) =>
      let (r, calls) := send_metrics_to_cloudwatch backend metrics
      .val (r.mapError (fun e => "Failed to send metrics to CloudWatch: " ++ e), calls)
  else
    .val (.ok (), [])

/-- The backend batches one line gives rise to, independent of the
backend's replies (the calls are issued before any reply is seen). -/
def lineBatches (line : String) : PanicOr (List (List MetricDatum)) :=
  match parse_metrics line with
  | .panic => .panic
  | .val none => .val []
  | .val (some m) =>
    let d := buildMetricData m
    .val (if !d.isEmpty then [d] else [])

/-- Whether processing the line panics (an out-of-bounds token index). -/
def isPanicLine (line : String) : Bool :=
  match lineBatches line with
  | .panic => true
  | .val _ => false

/-- The batches a non-panicking line forwards. -/
def batchesOf (line : String) : List (List MetricDatum) :=
  match lineBatches line with
  | .panic => []
  | .val c => c

/-- Embedding of the standard-output pump thread
(`src/main.rs`, lines 310–316): process each line in order with
`process_output` / `process_mining_metrics`; a panic kills the thread,
dropping the rest of the stream. Returns the backend calls made, in
order. -/
def pump_stdout (backend : Backend) : List String → List (List MetricDatum)
  | [] => []
  | l :: ls =>
    match process_mining_metrics backend l with
    | .panic => []
    | .val (_, calls) => calls ++ pump_stdout backend ls

/-! ## Daemon lifecycle model (`src/main.rs`) -/

/-- The error taxonomy of `OreMinerError` (`src/errors.rs`), restricted
to the variants the lifecycle manager can produce. -/
inductive OreError where
  | io : OreError
  | pidParse : OreError
  | daemon : OreError
deriving Repr, DecidableEq

/-- Models Rust `str::parse::<i32>`: optional sign, digits, value within
the signed 32-bit range. -/
def parseI32 (s : String) : Option Int :=
  let (neg, cs) : Bool × List Char := match s.toList with
    | '-' :: r => (true, r)
    | '+' :: r => (false, r)
    | cs => (false, cs)
  match digitsToNat? cs with
  | none => none
  | some n =>
    let v : Int := if neg then -(n : Int) else (n : Int)
    if -(2 ^ 31) ≤ v ∧ v < 2 ^ 31 then some v else none

/-- The environment of the lifecycle manager: the PID file's content (if
the file exists), the outcome of spawning the liveness probe
(`kill -0 pid`: `none` means the probe command itself could not be run,
`some b` its exit-status success), the outcome of spawning the
termination command (`kill pid`), and whether daemonization (including
creating its output files) succeeds. Filesystem removal of the PID file
is assumed to succeed. -/
structure DaemonWorld where
  pidFile : Option String
  probe : Int → Option Bool
  killCmd : Int → Option Bool
  daemonizeOk : Bool

/-- Embedding of `is_process_running` (`src/main.rs`, lines 172–179):
`kill -0 pid`, mapping the exit status to its success flag, and treating
a failure to run the probe at all as "not running". -/
def is_process_running (w : DaemonWorld) (pid : Int) : Bool :=
  ((w.probe pid).map (fun ok => ok)).getD false

/-- Embedding of `stop_daemon` (`src/main.rs`, lines 181–197): re-read
and re-parse the PID file, issue one `kill pid` (only a failure to spawn
the command is an error; its exit status is ignored), then remove the
PID file. Returns the new world and the list of PIDs sent a termination
signal. -/
def stop_daemon (w : DaemonWorld) :
    Except OreError (DaemonWorld × List Int) :=
  match w.pidFile with
  | none => .error .io
  | some content =>
    match parseI32 (strTrim content) with
    | none => .error .pidParse
    | some pid =>
      match w.killCmd pid with
      | none => .error .daemon
      | some _ => .ok ({ w with pidFile := none }, [pid])

/-- Embedding of `handle_existing_daemon` (`src/main.rs`, lines
153–170): open and read the PID file (absence is an `Io` error), parse
the PID, probe liveness; live → `stop_daemon` (its error wrapped as a
`Daemon` error), not live → remove the stale file. Returns the new world
and the PIDs sent a termination signal. -/
def handle_existing_daemon (w : DaemonWorld) :
    Except OreError (DaemonWorld × List Int) :=
  match w.pidFile with
  | none => .error .io
  | some content =>
    match parseI32 (strTrim content) with
    | none => .error .pidParse
    | some pid =>
      if is_process_running w pid then
        match stop_daemon w with
        | .error _ => .error .daemon
        | .ok (w', kills) => .ok (w', kills)
      else
        .ok ({ w with pidFile := none }, [])

/-- Embedding of `start_daemon` (`src/main.rs`, lines 199–236):
daemonize and record the current process identifier in the PID file;
failure is fatal. -/
def start_daemon (w : DaemonWorld) (selfPid : Int) :
    Except OreError DaemonWorld :=
  if w.daemonizeOk then .ok { w with pidFile := some (toString selfPid) }
  else .error .daemon

/-- The lifecycle prefix of `run` (`src/main.rs`, lines 85–88):
`handle_existing_daemon` then `start_daemon`; any error aborts startup. -/
def run_lifecycle (w : DaemonWorld) (selfPid : Int) :
    Except OreError (DaemonWorld × List Int) :=
  match handle_existing_daemon w with
  | .error e => .error e
  | .ok (w', kills) =>
    match start_daemon w' selfPid with
    | .error e => .error e
    | .ok w'' => .ok (w'', kills)

/-- A first start: the PID file is absent (nothing else unusual — probes
would report "not running", commands and daemonization would succeed). -/
def worldNoPidFile : DaemonWorld :=
  { pidFile := none
    probe := fun _ => some false
    killCmd := fun _ => some true
    daemonizeOk := true }

/-- A PID file naming process 42, which the liveness probe reports as
running. -/
def worldLivePid : DaemonWorld :=
  { pidFile := some "42"
    probe := fun _ => some true
    killCmd := fun _ => some true
    daemonizeOk := true }

/-- A PID file naming process 42, which the liveness probe reports as
not running. -/
def worldDeadPid : DaemonWorld :=
  { pidFile := some "42"
    probe := fun _ => some false
    killCmd := fun _ => some true
    daemonizeOk := true }

/-- A PID file naming process 42, but spawning the probe command itself
fails. -/
def worldProbeSpawnFails : DaemonWorld :=
  { pidFile := some "42"
    probe := fun _ => none
    killCmd := fun _ => some true
    daemonizeOk := true }

/-! ## Helper lemmas -/

/-- Two patterns neither of which prefixes the other cannot both prefix
the same line. -/
theorem startsWithStr_excl {s p q : String}
    (hpq : ¬ p.toList <+: q.toList) (hqp : ¬ q.toList <+: p.toList)
    (hp : startsWithStr s p = true) : startsWithStr s q = false := by
  rw [startsWithStr, List.isPrefixOf_iff_prefix] at hp
  rw [startsWithStr, Bool.eq_false_iff]
  intro hq
  rw [List.isPrefixOf_iff_prefix] at hq
  rcases List.prefix_or_prefix_of_prefix hp hq with h | h
  · exact hpq h
  · exact hqp h

/-- The batch length is the number of populated numeric fields. -/
theorem buildMetricData_length (m : Metrics) :
    (buildMetricData m).length = numericCount m := by
  rcases m with ⟨s, c, mu, d, ts, tx⟩
  cases s <;> cases c <;> cases mu <;> cases d <;>
    simp [buildMetricData, numericCount]

/-- Every batch entry carries the fixed dimension tag. -/
theorem buildMetricData_dimensions (m : Metrics) :
    ∀ x ∈ buildMetricData m, x.dimensions = commonDimensions := by
  rcases m with ⟨s, c, mu, d, ts, tx⟩
  cases s <;> cases c <;> cases mu <;> cases d <;>
    simp [buildMetricData, numericCount]

/-- At most four numeric fields exist. -/
theorem numericCount_le_four (m : Metrics) : numericCount m ≤ 4 := by
  rcases m with ⟨s, c, mu, d, ts, tx⟩
  cases s <;> cases c <;> cases mu <;> cases d <;> simp [numericCount]

/-- `handle_existing_daemon` on a PID file naming a process the probe
reports as not running: remove the file, terminate nobody, succeed. -/
theorem handle_existing_daemon_dead (w : DaemonWorld) (content : String) (pid : Int)
    (hfile : w.pidFile = some content)
    (hpid : parseI32 (strTrim content) = some pid)
    (hdead : is_process_running w pid = false) :
    handle_existing_daemon w = .ok ({ w with pidFile := none }, []) := by
  simp only [handle_existing_daemon, hfile, hpid, hdead]
  simp

/-- `handle_existing_daemon` on a PID file naming a process the probe
reports as running (and a runnable `kill`): terminate exactly that
process, remove the file, succeed. -/
theorem handle_existing_daemon_live (w : DaemonWorld) (content : String) (pid : Int)
    (hfile : w.pidFile = some content)
    (hpid : parseI32 (strTrim content) = some pid)
    (hlive : is_process_running w pid = true)
    (hkill : w.killCmd pid ≠ none) :
    handle_existing_daemon w = .ok ({ w with pidFile := none }, [pid]) := by
  rcases hk : w.killCmd pid with _ | b
  · exact absurd hk hkill
  · simp only [handle_existing_daemon, stop_daemon, hfile, hpid, hlive, hk]
    simp

/-- A string of length zero is the empty string. -/
theorem strEqEmptyOfLengthZero (s : String) (h : s.length = 0) : s = "" := by
  obtain ⟨data⟩ := s
  simp [String.length] at h
  simp [h]

/-- The backend calls one line gives rise to are `lineBatches`: they do
not depend on the backend's replies, and parser panics propagate. -/
theorem process_calls_eq (backend : Backend) (line : String) :
    (match process_mining_metrics backend line with
     | .panic => PanicOr.panic
     | .val (_, calls) => PanicOr.val calls) = lineBatches line := by
  by_cases hl : line.length > 0
  · rcases hpm : parse_metrics line with _ | om
    · simp [process_mining_metrics, lineBatches, hpm, hl]
    · rcases om with _ | m
      · simp [process_mining_metrics, lineBatches, hpm, hl]
      · simp only [process_mining_metrics, lineBatches, hpm, if_pos hl,
                   send_metrics_to_cloudwatch]
        split <;> rfl
  · have h0 : line = "" := strEqEmptyOfLengthZero line (by omega)
    subst h0
    rfl

/-- The stdout pump forwards, in source order, the batches of every
line strictly before the first panicking line (a panic kills the pump
thread). -/
theorem pump_stdout_eq (backend : Backend) (ls : List String) :
    pump_stdout backend ls =
      (ls.takeWhile (fun l => !isPanicLine l)).flatMap batchesOf := by
  induction ls with
  | nil => rfl
  | cons l ls ih =>
    have hc := process_calls_eq backend l
    rcases hp : process_mining_metrics backend l with _ | p
    · rw [hp] at hc
      have hline : isPanicLine l = true := by rw [isPanicLine, ← hc]
      simp [pump_stdout, hp, List.takeWhile_cons, hline]
    · rcases p with ⟨r, calls⟩
      rw [hp] at hc
      have hline : isPanicLine l = false := by rw [isPanicLine, ← hc]
      have hbat : batchesOf l = calls := by rw [batchesOf, ← hc]
      simp [pump_stdout, hp, List.takeWhile_cons, hline, hbat, ih]

/-- A line parsed to the all-empty record is processed without error and
without any backend call. -/
theorem process_of_parse_empty (backend : Backend) (line : String)
    (hp : parse_metrics line = .val (some emptyMetrics)) :
    process_mining_metrics backend line = .val (.ok (), []) := by
  by_cases hl : line.length > 0
  · simp [process_mining_metrics, hl, hp, send_metrics_to_cloudwatch,
          buildMetricData, emptyMetrics, Except.mapError]
  · simp [process_mining_metrics, hl]

/-! ## Claim theorems -/

/-- C1: the claim says a start with the PID file absent proceeds
directly to daemonizing and writes one PID file. The code instead opens
the PID file unconditionally, so an absent file is a fatal `Io` error:
startup aborts before daemonizing, no termination request is issued but
also no PID file is ever written. -/
theorem c1_absent_pid_file_aborts_startup :
    worldNoPidFile.pidFile = none ∧
    handle_existing_daemon worldNoPidFile = .error .io ∧
    run_lifecycle worldNoPidFile 4242 = .error .io :=
  ⟨rfl, rfl, rfl⟩

/-- C2: the claim says a recognized-prefix line missing its expected
token yields a non-fatal `ParseError`. The code indexes the token vector
without a bounds check, so such a line panics; the panic kills the
stdout pump thread, so the pipeline does not continue with the next line
(a later well-formed line forwards nothing), contradicting the claim. -/
theorem c2_missing_token_panics_and_kills_pump :
    parse_metrics "Stake:" = .panic ∧
    parse_metrics "Best hash: zzz (difficulty:" = .panic ∧
    pump_stdout okBackend ["Stake:", "Change: 2"] = [] ∧
    pump_stdout okBackend ["Change: 2"] =
      [[{ metric_name := "Change", dimensions := commonDimensions,
          value := 2, unit := "None" }]] := by
  decide

/-- C3 counterexample: the claim's input line
"Best hash: (difficulty: 12345)" splits into only four tokens, so
token[4] does not exist: the parser panics instead of yielding
difficulty = 12345. -/
theorem c3_counterexample_line_has_four_tokens :
    splitWhitespace (strTrim "Best hash: (difficulty: 12345)") =
      ["Best", "hash:", "(difficulty:", "12345)"] ∧
    (splitWhitespace (strTrim "Best hash: (difficulty: 12345)"))[4]? = none ∧
    parse_metrics "Best hash: (difficulty: 12345)" = .panic := by
  decide

/-- C3 (amended): on a best-hash line that carries the hash value, so
that token[4] exists — e.g. "Best hash: abc123 (difficulty: 12345)" —
the parser takes token[4] "12345)", strips the trailing ")", and yields
difficulty = 12345; the forwarder then makes exactly one backend call
whose batch is exactly one metric named Difficulty with value 12345. -/
theorem c3_difficulty_pipeline :
    (splitWhitespace (strTrim "Best hash: abc123 (difficulty: 12345)"))[4]? =
      some "12345)" ∧
    trimEndMatches ')' "12345)" = "12345" ∧
    parse_metrics "Best hash: abc123 (difficulty: 12345)" =
      .val (some { emptyMetrics with difficulty := some 12345 }) ∧
    (∀ backend : Backend,
      (send_metrics_to_cloudwatch backend
          { emptyMetrics with difficulty := some 12345 }).2 =
        [[{ metric_name := "Difficulty", dimensions := commonDimensions,
            value := 12345, unit := "None" }]]) := by
  refine ⟨by decide, by decide, by decide, ?_⟩
  intro backend
  simp [send_metrics_to_cloudwatch, buildMetricData, emptyMetrics]

/-- C4: for every line starting with a recognized prefix whose trailing
tokens are present and well-formed, `parse_metrics` returns the record
populated with exactly the one field of the table in §4.1: "Stake:" and
"Change:" take token[1] as float; "Multiplier:" takes token[1] with
trailing x stripped as float; "Best hash:" takes token[4] with trailing
")" stripped as unsigned integer; "Timestamp:" joins token[1] and
token[2] as date-T-time-Z; "OK" takes token[1] (trimmed) as the
transaction hash. -/
theorem c4_recognized_prefix_table (line : String) :
    (∀ tok v, startsWithStr (strTrim line) "Stake:" = true →
      (splitWhitespace (strTrim line))[1]? = some tok → parseF64 tok = some v →
      parse_metrics line = .val (some { emptyMetrics with stake := some v })) ∧
    (∀ tok v, startsWithStr (strTrim line) "Change:" = true →
      (splitWhitespace (strTrim line))[1]? = some tok → parseF64 tok = some v →
      parse_metrics line = .val (some { emptyMetrics with change := some v })) ∧
    (∀ tok v, startsWithStr (strTrim line) "Multiplier:" = true →
      (splitWhitespace (strTrim line))[1]? = some tok →
      parseF64 (trimEndMatches 'x' tok) = some v →
      parse_metrics line = .val (some { emptyMetrics with multiplier := some v })) ∧
    (∀ tok d, startsWithStr (strTrim line) "Best hash:" = true →
      (splitWhitespace (strTrim line))[4]? = some tok →
      parseU64 (trimEndMatches ')' tok) = some d →
      parse_metrics line = .val (some { emptyMetrics with difficulty := some d })) ∧
    (∀ d t, startsWithStr (strTrim line) "Timestamp:" = true →
      (splitWhitespace (strTrim line))[1]? = some d →
      (splitWhitespace (strTrim line))[2]? = some t →
      parse_metrics line =
        .val (some { emptyMetrics with timestamp := some (d ++ "T" ++ t ++ "Z") })) ∧
    (∀ tok, startsWithStr (strTrim line) "OK" = true →
      (splitWhitespace (strTrim line))[1]? = some tok →
      parse_metrics line = .val (some { emptyMetrics with tx_hash := some (strTrim tok) })) := by
  refine ⟨?_, ?_, ?_, ?_, ?_, ?_⟩
  · intro tok v hpre htok hv
    simp [parse_metrics, hpre, htok, hv]
  · intro tok v hpre htok hv
    have e1 := startsWithStr_excl (s := strTrim line)
      (p := "Change:") (q := "Stake:") (by decide) (by decide) hpre
    simp [parse_metrics, e1, hpre, htok, hv]
  · intro tok v hpre htok hv
    have e1 := startsWithStr_excl (s := strTrim line)
      (p := "Multiplier:") (q := "Stake:") (by decide) (by decide) hpre
    have e2 := startsWithStr_excl (s := strTrim line)
      (p := "Multiplier:") (q := "Change:") (by decide) (by decide) hpre
    simp [parse_metrics, e1, e2, hpre, htok, hv]
  · intro tok d hpre htok hd
    have e1 := startsWithStr_excl (s := strTrim line)
      (p := "Best hash:") (q := "Stake:") (by decide) (by decide) hpre
    have e2 := startsWithStr_excl (s := strTrim line)
      (p := "Best hash:") (q := "Change:") (by decide) (by decide) hpre
    have e3 := startsWithStr_excl (s := strTrim line)
      (p := "Best hash:") (q := "Multiplier:") (by decide) (by decide) hpre
    simp [parse_metrics, e1, e2, e3, hpre, htok, hd]
  · intro d t hpre hd ht
    have e1 := startsWithStr_excl (s := strTrim line)
      (p := "Timestamp:") (q := "Stake:") (by decide) (by decide) hpre
    have e2 := startsWithStr_excl (s := strTrim line)
      (p := "Timestamp:") (q := "Change:") (by decide) (by decide) hpre
    have e3 := startsWithStr_excl (s := strTrim line)
      (p := "Timestamp:") (q := "Multiplier:") (by decide) (by decide) hpre
    have e4 := startsWithStr_excl (s := strTrim line)
      (p := "Timestamp:") (q := "Best hash:") (by decide) (by decide) hpre
    simp [parse_metrics, e1, e2, e3, e4, hpre, hd, ht]
  · intro tok hpre htok
    have e1 := startsWithStr_excl (s := strTrim line)
      (p := "OK") (q := "Stake:") (by decide) (by decide) hpre
    have e2 := startsWithStr_excl (s := strTrim line)
      (p := "OK") (q := "Change:") (by decide) (by decide) hpre
    have e3 := startsWithStr_excl (s := strTrim line)
      (p := "OK") (q := "Multiplier:") (by decide) (by decide) hpre
    have e4 := startsWithStr_excl (s := strTrim line)
      (p := "OK") (q := "Best hash:") (by decide) (by decide) hpre
    have e5 := startsWithStr_excl (s := strTrim line)
      (p := "OK") (q := "Timestamp:") (by decide) (by decide) hpre
    simp [parse_metrics, e1, e2, e3, e4, e5, hpre, htok]

/-- C4 witness: the six table rows at concrete well-formed lines. -/
theorem c4_recognized_prefix_table_witness :
    parse_metrics "Stake: 10.25" =
      .val (some { emptyMetrics with stake := some (mkRat 41 4) }) ∧
    parse_metrics "Change: 2" =
      .val (some { emptyMetrics with change := some 2 }) ∧
    parse_metrics "Multiplier: 1.5x" =
      .val (some { emptyMetrics with multiplier := some (mkRat 3 2) }) ∧
    parse_metrics "Best hash: h777 (difficulty: 777)" =
      .val (some { emptyMetrics with difficulty := some 777 }) ∧
    parse_metrics "Timestamp: 2024-05-01 10:00:00" =
      .val (some { emptyMetrics with timestamp := some "2024-05-01T10:00:00Z" }) ∧
    parse_metrics "OK 3xYz" =
      .val (some { emptyMetrics with tx_hash := some (strTrim "3xYz") }) :=
  ⟨(c4_recognized_prefix_table "Stake: 10.25").1 "10.25" (mkRat 41 4)
      (by decide) (by decide) (by decide),
   (c4_recognized_prefix_table "Change: 2").2.1 "2" 2
      (by decide) (by decide) (by decide),
   (c4_recognized_prefix_table "Multiplier: 1.5x").2.2.1 "1.5x" (mkRat 3 2)
      (by decide) (by decide) (by decide),
   (c4_recognized_prefix_table "Best hash: h777 (difficulty: 777)").2.2.2.1 "777)" 777
      (by decide) (by decide) (by decide),
   (c4_recognized_prefix_table "Timestamp: 2024-05-01 10:00:00").2.2.2.2.1
      "2024-05-01" "10:00:00" (by decide) (by decide) (by decide),
   (c4_recognized_prefix_table "OK 3xYz").2.2.2.2.2 "3xYz"
      (by decide) (by decide)⟩

/-- C5: forwarding a record with no populated numeric field makes zero
backend calls and succeeds; forwarding a record with N ≥ 1 populated
numeric fields makes exactly one backend call whose batch has exactly N
entries, each tagged with the fixed dimension. -/
theorem c5_forward_batch (backend : Backend) (m : Metrics) :
    (numericCount m = 0 →
      send_metrics_to_cloudwatch backend m = (.ok (), [])) ∧
    (1 ≤ numericCount m →
      (send_metrics_to_cloudwatch backend m).2 = [buildMetricData m] ∧
      (buildMetricData m).length = numericCount m ∧
      numericCount m ≤ 4 ∧
      ∀ x ∈ buildMetricData m, x.dimensions = commonDimensions) := by
  constructor
  · intro h0
    have hlen : (buildMetricData m).length = 0 := by
      rw [buildMetricData_length, h0]
    have hnil : buildMetricData m = [] := List.length_eq_zero.mp hlen
    simp [send_metrics_to_cloudwatch, hnil]
  · intro h1
    have hlen := buildMetricData_length m
    have hne : buildMetricData m ≠ [] := by
      intro he
      rw [he] at hlen
      simp at hlen
      omega
    have hemp : (buildMetricData m).isEmpty = false := by
      rcases hbd : buildMetricData m with _ | ⟨a, tl⟩
      · exact absurd hbd hne
      · rfl
    exact ⟨by simp [send_metrics_to_cloudwatch, hemp], hlen,
           numericCount_le_four m, buildMetricData_dimensions m⟩

/-- C5 witness: the empty record forwards nothing and succeeds; a record
with two numeric fields forwards one batch of two tagged entries. -/
theorem c5_forward_batch_witness :
    numericCount emptyMetrics = 0 ∧
    send_metrics_to_cloudwatch okBackend emptyMetrics = (.ok (), []) ∧
    numericCount { emptyMetrics with stake := some 1, difficulty := some 5 } = 2 ∧
    (send_metrics_to_cloudwatch okBackend
        { emptyMetrics with stake := some 1, difficulty := some 5 }).2 =
      [buildMetricData { emptyMetrics with stake := some 1, difficulty := some 5 }] ∧
    (buildMetricData { emptyMetrics with stake := some 1, difficulty := some 5 }).length = 2 :=
  ⟨by decide,
   (c5_forward_batch okBackend emptyMetrics).1 (by decide),
   by decide,
   ((c5_forward_batch okBackend
      { emptyMetrics with stake := some 1, difficulty := some 5 }).2 (by decide)).1,
   by
    have h := ((c5_forward_batch okBackend
      { emptyMetrics with stake := some 1, difficulty := some 5 }).2 (by decide)).2.1
    rw [h]
    decide⟩

/-- C6: on a PID file naming a live process, starting issues exactly one
termination request to that process, removes the PID file and proceeds;
on a PID file naming a dead process, it removes the file and proceeds
with no termination request. -/
theorem c6_existing_pid_handling (w : DaemonWorld) (content : String) (pid : Int)
    (hfile : w.pidFile = some content)
    (hpid : parseI32 (strTrim content) = some pid) :
    (is_process_running w pid = true → w.killCmd pid ≠ none →
      handle_existing_daemon w = .ok ({ w with pidFile := none }, [pid])) ∧
    (is_process_running w pid = false →
      handle_existing_daemon w = .ok ({ w with pidFile := none }, [])) :=
  ⟨fun hlive hkill => handle_existing_daemon_live w content pid hfile hpid hlive hkill,
   fun hdead => handle_existing_daemon_dead w content pid hfile hpid hdead⟩

/-- C6 witness: concrete live and dead worlds with PID 42. -/
theorem c6_existing_pid_handling_witness :
    handle_existing_daemon worldLivePid =
      .ok ({ worldLivePid with pidFile := none }, [42]) ∧
    handle_existing_daemon worldDeadPid =
      .ok ({ worldDeadPid with pidFile := none }, []) :=
  ⟨(c6_existing_pid_handling worldLivePid "42" 42 rfl (by decide)).1
      (by decide) (by decide),
   (c6_existing_pid_handling worldDeadPid "42" 42 rfl (by decide)).2 (by decide)⟩

/-- C7: a line matching no recognized prefix, or blank after trimming,
parses to the all-empty record (the unrecognized outcome): no error, no
populated record, and processing it makes no backend call. -/
theorem c7_unrecognized_lines (line : String) :
    ((startsWithStr (strTrim line) "Stake:" = false ∧
      startsWithStr (strTrim line) "Change:" = false ∧
      startsWithStr (strTrim line) "Multiplier:" = false ∧
      startsWithStr (strTrim line) "Best hash:" = false ∧
      startsWithStr (strTrim line) "Timestamp:" = false ∧
      startsWithStr (strTrim line) "OK" = false) →
      parse_metrics line = .val (some emptyMetrics) ∧
      ∀ backend : Backend, process_mining_metrics backend line = .val (.ok (), [])) ∧
    (strTrim line = "" →
      parse_metrics line = .val (some emptyMetrics) ∧
      ∀ backend : Backend, process_mining_metrics backend line = .val (.ok (), [])) := by
  constructor
  · rintro ⟨h1, h2, h3, h4, h5, h6⟩
    have hp : parse_metrics line = .val (some emptyMetrics) := by
      simp [parse_metrics, h1, h2, h3, h4, h5, h6]
    exact ⟨hp, fun backend => process_of_parse_empty backend line hp⟩
  · intro ht
    have h1 : startsWithStr (strTrim line) "Stake:" = false := by rw [ht]; decide
    have h2 : startsWithStr (strTrim line) "Change:" = false := by rw [ht]; decide
    have h3 : startsWithStr (strTrim line) "Multiplier:" = false := by rw [ht]; decide
    have h4 : startsWithStr (strTrim line) "Best hash:" = false := by rw [ht]; decide
    have h5 : startsWithStr (strTrim line) "Timestamp:" = false := by rw [ht]; decide
    have h6 : startsWithStr (strTrim line) "OK" = false := by rw [ht]; decide
    have hp : parse_metrics line = .val (some emptyMetrics) := by
      simp [parse_metrics, h1, h2, h3, h4, h5, h6]
    exact ⟨hp, fun backend => process_of_parse_empty backend line hp⟩

/-- C7 witness: an unrecognized line and a whitespace-only line. -/
theorem c7_unrecognized_lines_witness :
    (parse_metrics "foo 123" = .val (some emptyMetrics) ∧
      process_mining_metrics okBackend "foo 123" = .val (.ok (), [])) ∧
    (parse_metrics "   " = .val (some emptyMetrics) ∧
      process_mining_metrics okBackend "   " = .val (.ok (), [])) := by
  constructor
  · obtain ⟨hp, hall⟩ := (c7_unrecognized_lines "foo 123").1 (by decide)
    exact ⟨hp, hall okBackend⟩
  · obtain ⟨hp, hall⟩ := (c7_unrecognized_lines "   ").2 (by decide)
    exact ⟨hp, hall okBackend⟩

/-- C8: every record the parser returns, on any input line, has at most
one of its six fields populated. -/
theorem c8_at_most_one_populated (line : String) (m : Metrics)
    (h : parse_metrics line = .val (some m)) : populatedCount m ≤ 1 := by
  simp only [parse_metrics] at h
  repeat' split at h
  all_goals (first
    | exact PanicOr.noConfusion h
    | (injection h with h1; injection h1 with h2; subst h2;
       simp [populatedCount, emptyMetrics])
    | (injection h with h1; injection h1))

/-- C8 witness: the record of a concrete stake line. -/
theorem c8_at_most_one_populated_witness :
    populatedCount { emptyMetrics with stake := some 7 } ≤ 1 :=
  c8_at_most_one_populated "Stake: 7" _ (by decide)

/-- C9: the stdout pump forwards metric batches in exactly the order the
source lines were read (the lines before the first panicking line, in
list order); in particular, feeding ["Stake: 10", "Change: 2"] forwards
the Stake record before the Change record. -/
theorem c9_pump_preserves_order :
    (∀ (backend : Backend) (ls : List String),
      pump_stdout backend ls =
        (ls.takeWhile (fun l => !isPanicLine l)).flatMap batchesOf) ∧
    pump_stdout okBackend ["Stake: 10", "Change: 2"] =
      [[{ metric_name := "Stake", dimensions := commonDimensions,
          value := 10, unit := "None" }],
       [{ metric_name := "Change", dimensions := commonDimensions,
          value := 2, unit := "None" }]] :=
  ⟨pump_stdout_eq, by decide⟩

/-- C10: when the liveness probe command itself cannot be spawned, the
target is treated as not running: the PID file is removed and startup
proceeds without any termination request. -/
theorem c10_probe_spawn_failure (w : DaemonWorld) (content : String) (pid : Int)
    (hfile : w.pidFile = some content)
    (hpid : parseI32 (strTrim content) = some pid)
    (hprobe : w.probe pid = none) :
    is_process_running w pid = false ∧
    handle_existing_daemon w = .ok ({ w with pidFile := none }, []) := by
  have hdead : is_process_running w pid = false := by
    rw [is_process_running, hprobe]
    rfl
  exact ⟨hdead, handle_existing_daemon_dead w content pid hfile hpid hdead⟩

/-- C10 witness: a concrete world whose probe command fails to spawn. -/
theorem c10_probe_spawn_failure_witness :
    is_process_running worldProbeSpawnFails 42 = false ∧
    handle_existing_daemon worldProbeSpawnFails =
      .ok ({ worldProbeSpawnFails with pidFile := none }, []) :=
  c10_probe_spawn_failure worldProbeSpawnFails "42" 42 rfl (by decide) rfl

end OreDaemon
